import Mathlib

/-!
Verification of the incremental resolution & validation pipeline of the
`selfies-vscode` extension (files `src/diagnostics.js` and
`src/lineTracker.js`), shallowly embedded in Lean 4.

External collaborators (the `selfies-js` encoding engine, the filesystem
`statSync` call and the dynamic module importer) are modelled as oracles
gathered in an `Engine` record: each oracle is a function returning
`Except String _`, where `Except.error msg` models the JavaScript call
throwing an exception whose `.message` is `msg`.

JavaScript `null`/`undefined` values are modelled with `Option`; the
JavaScript truthiness test on a string value (`if (!s)`) is modelled by
checking for `none` and for the empty string, which are the only falsy
string-typed values.
-/

namespace SelfiesVscode

/-- A structured error/warning report produced by the engine
(`selfies-js`), as consumed by `diagnostics.js`: 1-based `line`/`column`,
optional `endColumn`, a `type` (kind) and possibly a `severity` string,
a message and an optional code.  Numeric fields are `Int` to mirror
JavaScript numbers on which `- 1` is ordinary subtraction. -/
structure Report where
  type : Option String
  severity : Option String
  line : Option Int
  column : Option Int
  endColumn : Option Int
  message : String
  code : Option String
  deriving Repr, DecidableEq

/-- The four VS Code diagnostic severity levels. -/
inductive Severity where
  | error
  | warning
  | information
  | hint
  deriving Repr, DecidableEq

/-- A positioned diagnostic record as stored in the VS Code diagnostic
collection: a range in 0-based coordinates, message, severity, source tag
and optional code. -/
structure Diagnostic where
  startLine : Int
  startCol : Int
  endLine : Int
  endCol : Int
  message : String
  severity : Severity
  source : String
  code : Option String
  deriving Repr, DecidableEq

/-- JavaScript `a || b` on two possibly-absent strings: `a` unless `a` is
absent or the empty string (the falsy string). Models
`error.type || error.severity` in `diagnostics.js`. -/
def jsOrStr (a b : Option String) : Option String :=
  match a with
  | some s => if s = "" then b else some s
  | none => b

/-- Function `getSeverity` from `src/diagnostics.js` (lines 100-118): the switch
mapping an error kind to a VS Code severity, defaulting to Error. An
absent kind (`undefined`) falls through to the default branch. -/
def getSeverity (type : Option String) : Severity :=
  match type with
  | none => .error
  | some t =>
    if t = "error" ∨ t = "syntax" ∨ t = "undefined" ∨ t = "circular"
        ∨ t = "redefinition" then .error
    else if t = "warning" ∨ t = "chemistry" then .warning
    else if t = "info" then .information
    else if t = "hint" then .hint
    else .error

/-- Expression `error.line !== undefined ? error.line - 1 : 0` — 1-based to 0-based
line/column conversion with default 0 for an absent field. -/
def convIndex (v : Option Int) : Int :=
  match v with
  | some n => n - 1
  | none => 0

/-- Expression `error.endColumn !== undefined ? error.endColumn - 1 : column + 1` —
the end column, defaulting to a single-column span after the start. -/
def convEndCol (e : Option Int) (column : Int) : Int :=
  match e with
  | some n => n - 1
  | none => column + 1

/-- The diagnostic built from one record of the engine's `errors` list
(`src/diagnostics.js` lines 31-57): converted range, severity from
`getSeverity(error.type || error.severity)`, source `selfies`, and the
code attached only when truthy (`if (error.code)` skips an absent or
empty code). -/
def buildErrorDiagnostic (r : Report) : Diagnostic :=
  let line := convIndex r.line
  let column := convIndex r.column
  let endColumn := convEndCol r.endColumn column
  { startLine := line
    startCol := column
    endLine := line
    endCol := endColumn
    message := r.message
    severity := getSeverity (jsOrStr r.type r.severity)
    source := "selfies"
    code := match r.code with
      | some c => if c = "" then none else some c
      | none => none }

/-- The diagnostic built from one record of the engine's `warnings` list
(`src/diagnostics.js` lines 63-81): same range conversion, but the
severity is hard-coded to Warning and no code is attached. -/
def buildWarningDiagnostic (r : Report) : Diagnostic :=
  let line := convIndex r.line
  let column := convIndex r.column
  let endColumn := convEndCol r.endColumn column
  { startLine := line
    startCol := column
    endLine := line
    endCol := endColumn
    message := r.message
    severity := .warning
    source := "selfies"
    code := none }

/-- A token of a declarative definition's raw token list: a plain string,
a structured repeat construct (`{type:'REPEAT_CALL', pattern, count}`,
with both interpolated fields modelled as their string renderings), or
any other value via its `String(token)` rendering. -/
inductive Token where
  | str (s : String)
  | repeatCall (pattern : String) (count : String)
  | other (repr : String)
  deriving Repr, DecidableEq

/-- A named definition in the engine's symbol table: name, 1-based source
line, and the raw token list (possibly absent). -/
structure Definition where
  name : String
  line : Nat
  tokens : Option (List Token)
  deriving Repr, DecidableEq

/-- The engine's full-document resolution (`loadWithImports` result):
ordered definitions (the values of the name-keyed map), plus error and
warning report lists, each possibly absent (`result.errors && ...`). -/
structure ParseResult where
  definitions : Option (List Definition)
  errors : Option (List Report)
  warnings : Option (List Report)
  deriving Repr, DecidableEq

/-- The shape the executable-module path reads off a named export:
`smiles`, `molecularWeight` and `formula` fields, each possibly absent.
The weight is modelled as an `Int` (its value never matters here). -/
structure ExportVal where
  smiles : Option String
  molecularWeight : Option Int
  formula : Option String
  deriving Repr, DecidableEq

/-- A loaded module's exports: an association list from export names to
export values. An absent or falsy export is modelled as a missing key. -/
def ModuleExports := List (String × ExportVal)
  deriving Repr, DecidableEq

/-- Association-list lookup, modelling `module[exportName]` and the map
lookup `this._smilesModuleCache.get(cacheKey)`. -/
def assocLookup {α : Type} (l : List (String × α)) (k : String) : Option α :=
  match l with
  | [] => none
  | (k', v) :: rest => if k' = k then some v else assocLookup rest k

/-- The oracle record for every external collaborator the pipeline calls:
the `selfies-js` engine functions, `fs.statSync(..).mtimeMs` and the
dynamic module importer. `Except.error m` models a thrown exception with
message `m`; `resolve` and `decode` may also return `null`
(`Except.ok none`). -/
structure Engine where
  loadWithImports : String → Except String ParseResult
  resolve : ParseResult → String → Except String (Option String)
  decode : String → Except String (Option String)
  getMolecularWeight : String → Except String Int
  getFormula : String → Except String String
  statMtime : String → Except String Int
  importModule : String → Except String ModuleExports

/-- A document as seen by the core: an identity token (VS Code object
identity), full text, file name and language id. -/
structure Doc where
  id : Nat
  text : String
  fileName : String
  languageId : String
  deriving Repr, DecidableEq

/-- Function `updateDiagnostics` from `src/diagnostics.js` (lines 16-97) as a pure
function from the engine oracle and the document to the diagnostic list
stored for that document; `none` when the document's language is not
`selfies` and the function returns without storing anything. When the
engine's full-document parse throws, one synthetic Error diagnostic at
`(0,0)-(0,1)` carrying the failure message is stored. -/
def updateDiagnostics (eng : Engine) (doc : Doc) : Option (List Diagnostic) :=
  if doc.languageId ≠ "selfies" then none
  else
    match eng.loadWithImports doc.text with
    | .error msg =>
        some [{ startLine := 0, startCol := 0, endLine := 0, endCol := 1
                message := "Failed to parse SELFIES file: " ++ msg
                severity := .error, source := "selfies", code := none }]
    | .ok result =>
        some ((result.errors.getD []).map buildErrorDiagnostic
          ++ (result.warnings.getD []).map buildWarningDiagnostic)

/-- The Resolution Result fired on the line-change event
(`this._onDidChangeCurrentLine.fire(lineInfo)`): every field the various
fire sites may populate; a field a fire site omits is `none`
(JavaScript `undefined`). -/
structure LineInfo where
  line : Nat
  name : Option String
  expression : Option String
  selfies : Option String
  smiles : Option String
  molecularWeight : Option Int
  formula : Option String
  error : Option String
  deriving Repr, DecidableEq

/-- Rendering of one raw token by `_formatTokens`
(`src/lineTracker.js` lines 304-313): strings pass through, a
`REPEAT_CALL` object becomes `repeat(pattern, count)`, anything else its
`String(token)` form. -/
def renderToken (t : Token) : String :=
  match t with
  | .str s => s
  | .repeatCall pattern count => "repeat(" ++ pattern ++ ", " ++ count ++ ")"
  | .other repr => repr

/-- Function `_formatTokens(tokens)`: map each token through its rendering and
join with the empty separator. -/
def formatTokens (tokens : List Token) : String :=
  String.join (tokens.map renderToken)

/-- Whether the pattern list is a prefix of the other list. -/
def charsPrefix : List Char → List Char → Bool
  | [], _ => true
  | _ :: _, [] => false
  | p :: ps, c :: cs => p = c && charsPrefix ps cs

/-- Method `s.startsWith(p)` on strings. -/
def strStartsWith (s p : String) : Bool :=
  charsPrefix p.toList s.toList

/-- Method `s.endsWith(p)` on strings. -/
def strEndsWith (s p : String) : Bool :=
  charsPrefix p.toList.reverse s.toList.reverse

/-- Whitespace as understood by JavaScript (`\s` in a pattern, and the
set stripped by `trim()`): ASCII whitespace including vertical tab and
form feed, the line separators, and the Unicode space separators plus
BOM. -/
def isSpaceChar (c : Char) : Bool :=
  c = ' ' || c = '\t' || c = '\n' || c = '\r'
    || c = '\x0b' || c = '\x0c'
    || c = '\u00A0' || c = '\u1680'
    || ('\u2000' ≤ c && c ≤ '\u200A')
    || c = '\u2028' || c = '\u2029' || c = '\u202F'
    || c = '\u205F' || c = '\u3000' || c = '\uFEFF'

/-- Method `s.trim()`: drop whitespace from both ends. -/
def jsTrim (s : String) : String :=
  String.mk (((s.toList.dropWhile isSpaceChar).reverse.dropWhile
    isSpaceChar).reverse)

/-- Test `fileName.endsWith('.smiles.js')` — the dual-format dispatch test. -/
def isSmilesJS (doc : Doc) : Bool :=
  strEndsWith doc.fileName ".smiles.js"

/-- Predicate `this._isSupportedFile(document)` (`src/lineTracker.js` lines
237-238): language id `selfies` or a `.smiles.js` file name. -/
def isSupportedFile (doc : Doc) : Bool :=
  doc.languageId = "selfies" || strEndsWith doc.fileName ".smiles.js"

/-- Split a character list at newline characters, accumulating the
current line in reverse. -/
def splitCharsAux : List Char → List Char → List String
  | [], cur => [String.mk cur.reverse]
  | c :: rest, cur =>
    if c = '\n' then String.mk cur.reverse :: splitCharsAux rest []
    else splitCharsAux rest (c :: cur)

/-- The document's physical lines (`text.split('\n')`). -/
def docLines (text : String) : List String :=
  splitCharsAux text.toList []

/-- JavaScript `\w` (ASCII word character). -/
def isWordChar (c : Char) : Bool :=
  c.isAlphanum || c = '_'

/-- Match a literal string at the head of the character list, returning
the remainder on success. -/
def matchLit : List Char → List Char → Option (List Char)
  | [], cs => some cs
  | _ :: _, [] => none
  | p :: ps, c :: cs => if c = p then matchLit ps cs else none

/-- Match one-or-more whitespace characters (`\s+`), returning the
remainder after the maximal run. -/
def matchWs1 (cs : List Char) : Option (List Char) :=
  match cs.span isSpaceChar with
  | (ws, rest) => if ws.isEmpty then none else some rest

/-- Attempt the pattern `export\s+const\s+(\w+)\s*=` anchored at the head
of the character list, returning the captured identifier. Because the
character classes of adjacent pattern pieces are disjoint, maximal-munch
matching coincides with the backtracking semantics of the JavaScript
regular expression. -/
def matchExportAt (cs : List Char) : Option String :=
  (matchLit "export".toList cs).bind fun r1 =>
  (matchWs1 r1).bind fun r2 =>
  (matchLit "const".toList r2).bind fun r3 =>
  (matchWs1 r3).bind fun r4 =>
  match r4.span isWordChar with
  | (w, r5) =>
    if w.isEmpty then none
    else
      match r5.dropWhile isSpaceChar with
      | '=' :: _ => some (String.mk w)
      | _ => none

/-- Scan for the leftmost occurrence of the export pattern
(`line.match(/export\s+const\s+(\w+)\s*=/)` tries every start index from
the left). -/
def scanExport : List Char → Option String
  | [] => none
  | c :: rest =>
    match matchExportAt (c :: rest) with
    | some id => some id
    | none => scanExport rest

/-- Function `_findExportAtLine(text, lineNumber)` (`src/lineTracker.js` lines
347-360): split the text into lines, index the requested line
(`undefined` past the end), return `null` for a missing or empty line
(`if (!line)`), otherwise the first match's captured identifier. -/
def findExportAtLine (text : String) (lineNumber : Nat) : Option String :=
  let lines := docLines text
  match lines[lineNumber]? with
  | none => none
  | some line => if line = "" then none else scanExport line.toList

/-- The module-load cache: at most one `(cacheKey, exports)` entry is ever
stored, but the type does not enforce that — the invariant is proved. -/
def ModCache := List (String × ModuleExports)
  deriving Repr, DecidableEq

/-- Function `_loadSmilesModule(filePath)` (`src/lineTracker.js` lines 318-342) as
a state-passing function on the cache. The cache key is
`filePath:mtimeMs`; `statSync` sits outside the `try`, so its failure
propagates (`Except.error`). A cache hit returns the stored exports
without consulting the importer; a miss runs the importer: on success the
cache is cleared and the single new entry stored, on failure (`catch`)
`null` is returned and the cache is left as it was. -/
def loadSmilesModule (eng : Engine) (cache : ModCache) (filePath : String) :
    Except String (ModCache × Option ModuleExports) :=
  match eng.statMtime filePath with
  | .error e => .error e
  | .ok mtime =>
    let cacheKey := filePath ++ ":" ++ toString mtime
    match assocLookup cache cacheKey with
    | some m => .ok (cache, some m)
    | none =>
      match eng.importModule filePath with
      | .ok m => .ok ([(cacheKey, m)], some m)
      | .error _ => .ok (cache, none)

/-- JavaScript truthiness on an optional string: falsy iff absent or
empty (`if (!selfies)`, `if (!fragment.smiles)`). -/
def strFalsy (v : Option String) : Bool :=
  match v with
  | none => true
  | some s => s = ""

/-- Expression `error || 'Could not resolve definition'` where `error` is a possibly
empty caught message. -/
def errOrDefault (error : Option String) (d : String) : String :=
  match error with
  | some m => if m = "" then d else m
  | none => d

/-- Expression `definition.tokens ? this._formatTokens(definition.tokens) : ''`. -/
def definitionExpression (d : Definition) : String :=
  match d.tokens with
  | some toks => formatTokens toks
  | none => ""

/-- The declarative resolve/decode/properties stages
(`src/lineTracker.js` lines 453-505) for a located definition: resolve
the name (failures caught, message kept), publish a partial result when
the resolved form is falsy, otherwise decode (failure caught into
`error`) and, only when the error so far is falsy (absent or an empty
message — `if (selfies && !error)`), best-effort compute weight then
formula in a single `try` (a failure leaves the remaining fields null and
never sets `error`). -/
def declarativeResolve (eng : Engine) (pr : ParseResult) (line : Nat)
    (definition : Definition) : LineInfo :=
  let resolved : Option String × Option String :=
    match eng.resolve pr definition.name with
    | .ok v => (v, none)
    | .error m => (none, some m)
  let selfies := resolved.1
  let error0 := resolved.2
  if strFalsy selfies then
    { line := line
      name := some definition.name
      expression := some (definitionExpression definition)
      selfies := none, smiles := none
      molecularWeight := none, formula := none
      error := some (errOrDefault error0 "Could not resolve definition") }
  else
    let s := selfies.getD ""
    let decoded : Option String × Option String :=
      match eng.decode s with
      | .ok sm => (sm, error0)
      | .error m => (none, some m)
    let smiles := decoded.1
    let error := decoded.2
    let props : Option Int × Option String :=
      if !(strFalsy selfies) && strFalsy error then
        match eng.getMolecularWeight s with
        | .error _ => (none, none)
        | .ok w =>
          match eng.getFormula s with
          | .error _ => (some w, none)
          | .ok f => (some w, some f)
      else (none, none)
    { line := line
      name := some definition.name
      expression := some (definitionExpression definition)
      selfies := selfies
      smiles := smiles
      molecularWeight := props.1
      formula := props.2
      error := error }

/-- Statement `if (!this._parseResult) this._parseResult = loadWithImports(...)`:
the full-document resolution used by a run — the memoized one when
present, otherwise a fresh engine parse. -/
def effectiveParse (eng : Engine) (doc : Doc) (pc : Option ParseResult) :
    Except String ParseResult :=
  match pc with
  | some p => .ok p
  | none => eng.loadWithImports doc.text

/-- The outcome of one `_updateLineInfo` run: the parse cache and module
cache after the run, and the value fired on the line-change event
(`none` models firing `null`, the "nothing to show" signal). -/
structure UpdateOutcome where
  parseCache : Option ParseResult
  modCache : ModCache
  fired : Option LineInfo
  deriving Repr, DecidableEq

/-- The body of the `try` block of `_updateLineInfo`
(`src/lineTracker.js` lines 365-505), given a current document and line:
read and trim the physical line (`lineAt` throws past the end), then
either the executable-module branch (blank/comment skip with `//`
and `/*`, export lookup, cache-keyed module load, fragment-shape check,
direct result) or the declarative branch (parse-if-needed — note this
precedes the blank/comment skip — blank/`#` skip, definition lookup by
1-based line, then the resolve stages). -/
def updateLineInfoTry (eng : Engine) (doc : Doc) (currentLine : Nat)
    (pc : Option ParseResult) (mc : ModCache) : Except String UpdateOutcome :=
  let lines := docLines doc.text
  match lines[currentLine]? with
  | none => .error "Illegal value for line"
  | some rawLine =>
    let lineText := jsTrim rawLine
    if isSmilesJS doc then
      if lineText = "" || strStartsWith lineText "//" || strStartsWith lineText "/*" then
        .ok { parseCache := pc, modCache := mc, fired := none }
      else
        match findExportAtLine doc.text currentLine with
        | none => .ok { parseCache := pc, modCache := mc, fired := none }
        | some exportName =>
          match loadSmilesModule eng mc doc.fileName with
          | .error e => .error e
          | .ok (mc', mod?) =>
            match mod? with
            | none => .ok { parseCache := pc, modCache := mc', fired := none }
            | some m =>
              match assocLookup m exportName with
              | none => .ok { parseCache := pc, modCache := mc', fired := none }
              | some fragment =>
                if strFalsy fragment.smiles then
                  .ok { parseCache := pc, modCache := mc', fired := none }
                else
                  .ok { parseCache := pc, modCache := mc'
                        fired := some
                          { line := currentLine
                            name := some exportName
                            expression := some lineText
                            selfies := none
                            smiles := fragment.smiles
                            molecularWeight := fragment.molecularWeight
                            formula := fragment.formula
                            error := none } }
    else
      match effectiveParse eng doc pc with
      | .error e => .error e
      | .ok pr =>
        let pc' := some pr
        if lineText = "" || strStartsWith lineText "#" then
          .ok { parseCache := pc', modCache := mc, fired := none }
        else
          let definitionsArray := pr.definitions.getD []
          match definitionsArray.find? (fun d => d.line = currentLine + 1) with
          | none => .ok { parseCache := pc', modCache := mc, fired := none }
          | some definition =>
            .ok { parseCache := pc', modCache := mc
                  fired := some (declarativeResolve eng pr currentLine definition) }

/-- Function `_updateLineInfo` with its outermost `catch` (`src/lineTracker.js`
lines 506-512): a failure escaping the stages fires a result carrying
only the line and the caught message. The caches are unchanged in that
case, since every escaping failure (`lineAt`, `loadWithImports`,
`statSync`) occurs before any cache assignment. -/
def updateLineInfo (eng : Engine) (doc : Doc) (currentLine : Nat)
    (pc : Option ParseResult) (mc : ModCache) : UpdateOutcome :=
  match updateLineInfoTry eng doc currentLine pc mc with
  | .ok r => r
  | .error msg =>
      { parseCache := pc, modCache := mc
        fired := some
          { line := currentLine
            name := none, expression := none, selfies := none
            smiles := none, molecularWeight := none, formula := none
            error := some msg } }

/-- The tracker's session state: the tracked document, the tracked
0-based line, and the memoized full-document resolution. -/
structure TrackerState where
  currentDocument : Option Doc
  currentLine : Option Nat
  parseResult : Option ParseResult
  deriving Repr, DecidableEq

/-- Function `_handleSelectionChange(event)` (`src/lineTracker.js` lines 272-285):
ignore events without a supported editor; update the tracked line and
trigger a resolution (`Bool` result) only when the raw line number
differs from the tracked one. -/
def handleSelectionChange (st : TrackerState) (editorDoc : Option Doc)
    (lineNumber : Nat) : TrackerState × Bool :=
  match editorDoc with
  | none => (st, false)
  | some d =>
    if !(isSupportedFile d) then (st, false)
    else if st.currentLine ≠ some lineNumber then
      ({ st with currentLine := some lineNumber }, true)
    else (st, false)

/-- The active-editor-change listener (`src/lineTracker.js` lines
244-257): for a supported document, discard the memoized resolution and
retarget the tracked document when the identity differs, then always set
the tracked line and trigger a resolution — even when the line number is
unchanged. -/
def handleEditorChange (st : TrackerState) (editor : Option Doc)
    (lineNumber : Nat) : TrackerState × Bool :=
  match editor with
  | none => (st, false)
  | some d =>
    if isSupportedFile d then
      let documentChanged := st.currentDocument ≠ some d
      let st1 :=
        if documentChanged then
          { st with parseResult := none, currentDocument := some d }
        else st
      ({ st1 with currentLine := some lineNumber }, true)
    else (st, false)

/-! ## Concrete engines and documents used for witnesses and
counterexamples -/

/-- An engine whose full-document parse throws `boom`; the remaining
oracles are irrelevant stubs. -/
def engBoom : Engine :=
  { loadWithImports := fun _ => .error "boom"
    resolve := fun _ _ => .ok none
    decode := fun _ => .ok none
    getMolecularWeight := fun _ => .error ""
    getFormula := fun _ => .error ""
    statMtime := fun _ => .ok 0
    importModule := fun _ => .error "" }

/-- A one-line (blank) declarative document. -/
def docBlank : Doc :=
  { id := 0, text := "", fileName := "a.selfies", languageId := "selfies" }

/-- A report of kind `syntax` that the engine delivers in its *warnings*
list. -/
def reportSyntaxKind : Report :=
  { type := some "syntax", severity := none, line := some 1,
    column := some 1, endColumn := none, message := "bad syntax",
    code := none }

/-- An engine whose parse succeeds with `reportSyntaxKind` as the only
warning. -/
def engSyntaxWarning : Engine :=
  { loadWithImports := fun _ =>
      .ok { definitions := none, errors := none,
            warnings := some [reportSyntaxKind] }
    resolve := fun _ _ => .ok none
    decode := fun _ => .ok none
    getMolecularWeight := fun _ => .error ""
    getFormula := fun _ => .error ""
    statMtime := fun _ => .ok 0
    importModule := fun _ => .error "" }

/-- A report with 1-based line 3, column 5 and no end column. -/
def reportAt35 : Report :=
  { type := none, severity := none, line := some 3, column := some 5,
    endColumn := none, message := "w", code := none }

/-! ## Claim theorems: diagnostics pipeline -/

/-- C7: for every document on which the engine's full-document validation
itself throws, the diagnostics pass stores exactly one Error-severity
diagnostic whose range is `(0,0)-(0,1)` and whose message carries the
caught failure message. -/
theorem catastrophicParse_singleSyntheticDiagnostic
    (eng : Engine) (doc : Doc) (msg : String)
    (hlang : doc.languageId = "selfies")
    (hthrow : eng.loadWithImports doc.text = .error msg) :
    updateDiagnostics eng doc =
      some [{ startLine := 0, startCol := 0, endLine := 0, endCol := 1
              message := "Failed to parse SELFIES file: " ++ msg
              severity := Severity.error, source := "selfies"
              code := none }] := by
  simp [updateDiagnostics, hlang, hthrow]

/-- Witness for C7: the concrete engine `engBoom` throwing on the blank
document yields exactly the synthetic diagnostic. -/
theorem catastrophicParse_singleSyntheticDiagnostic_witness :
    updateDiagnostics engBoom docBlank =
      some [{ startLine := 0, startCol := 0, endLine := 0, endCol := 1
              message := "Failed to parse SELFIES file: boom"
              severity := Severity.error, source := "selfies"
              code := none }] :=
  catastrophicParse_singleSyntheticDiagnostic engBoom docBlank "boom" rfl rfl

/-- C8: a report carrying 1-based line `L` and column `C` produces a
diagnostic whose range starts at 0-based `(L-1, C-1)`; a present 1-based
end column `E` makes the range end at column `E-1`, an absent one at the
single-column span `(C-1)+1` — identically for records of the errors list
and of the warnings list, which is how `updateDiagnostics` builds every
stored record when the parse returns normally. -/
theorem diagnosticRange_conversion (r : Report) (L C : Int)
    (hL : r.line = some L) (hC : r.column = some C) :
    ((buildErrorDiagnostic r).startLine = L - 1
      ∧ (buildErrorDiagnostic r).startCol = C - 1
      ∧ (buildErrorDiagnostic r).endLine = L - 1
      ∧ (∀ E, r.endColumn = some E → (buildErrorDiagnostic r).endCol = E - 1)
      ∧ (r.endColumn = none → (buildErrorDiagnostic r).endCol = (C - 1) + 1))
    ∧ ((buildWarningDiagnostic r).startLine = L - 1
      ∧ (buildWarningDiagnostic r).startCol = C - 1
      ∧ (buildWarningDiagnostic r).endLine = L - 1
      ∧ (∀ E, r.endColumn = some E → (buildWarningDiagnostic r).endCol = E - 1)
      ∧ (r.endColumn = none → (buildWarningDiagnostic r).endCol = (C - 1) + 1))
    ∧ ∀ (eng : Engine) (doc : Doc) (res : ParseResult),
        doc.languageId = "selfies" →
        eng.loadWithImports doc.text = .ok res →
        updateDiagnostics eng doc =
          some ((res.errors.getD []).map buildErrorDiagnostic
            ++ (res.warnings.getD []).map buildWarningDiagnostic) := by
  refine ⟨⟨?_, ?_, ?_, ?_, ?_⟩, ⟨?_, ?_, ?_, ?_, ?_⟩, ?_⟩
  · simp [buildErrorDiagnostic, convIndex, hL]
  · simp [buildErrorDiagnostic, convIndex, hC]
  · simp [buildErrorDiagnostic, convIndex, hL]
  · intro E hE; simp [buildErrorDiagnostic, convIndex, convEndCol, hE]
  · intro hE; simp [buildErrorDiagnostic, convIndex, convEndCol, hE, hC]
  · simp [buildWarningDiagnostic, convIndex, hL]
  · simp [buildWarningDiagnostic, convIndex, hC]
  · simp [buildWarningDiagnostic, convIndex, hL]
  · intro E hE; simp [buildWarningDiagnostic, convIndex, convEndCol, hE]
  · intro hE; simp [buildWarningDiagnostic, convIndex, convEndCol, hE, hC]
  · intro eng doc res h1 h2
    simp [updateDiagnostics, h1, h2]

/-- Witness for C8: the concrete report at line 3, column 5 with no end
column maps to start column `5 - 1` and end column `(5 - 1) + 1`. -/
theorem diagnosticRange_conversion_witness :
    (buildErrorDiagnostic reportAt35).startCol = 5 - 1
    ∧ (buildErrorDiagnostic reportAt35).endCol = (5 - 1) + 1 :=
  ⟨(diagnosticRange_conversion reportAt35 3 5 rfl rfl).1.2.1,
   (diagnosticRange_conversion reportAt35 3 5 rfl rfl).1.2.2.2.2 rfl⟩

/-- C3 counterexample: a record of kind `syntax` delivered in the
engine's warnings list is stored with Warning severity, although the
claimed kind-to-severity mapping sends `syntax` to Error — the warnings
loop never consults `getSeverity`. -/
theorem severityMapping_warningsList_cex :
    updateDiagnostics engSyntaxWarning docBlank =
      some [{ startLine := 0, startCol := 0, endLine := 0, endCol := 1
              message := "bad syntax", severity := Severity.warning
              source := "selfies", code := none }]
    ∧ getSeverity (some "syntax") = Severity.error
    ∧ Severity.warning ≠ Severity.error := by
  refine ⟨rfl, by decide, by decide⟩

/-- C3 (amended): the kind-to-severity mapping holds as claimed for
records of the engine's *errors* list (`syntax`, `undefined`, `circular`,
`redefinition` and bare `error` map to Error; `chemistry` and bare
`warning` to Warning; `info` to Information; `hint` to Hint; every other
kind to Error), but records of the engine's *warnings* list are always
assigned Warning severity regardless of their kind. -/
theorem severityMapping_amended :
    getSeverity (some "syntax") = Severity.error
    ∧ getSeverity (some "undefined") = Severity.error
    ∧ getSeverity (some "circular") = Severity.error
    ∧ getSeverity (some "redefinition") = Severity.error
    ∧ getSeverity (some "error") = Severity.error
    ∧ getSeverity (some "chemistry") = Severity.warning
    ∧ getSeverity (some "warning") = Severity.warning
    ∧ getSeverity (some "info") = Severity.information
    ∧ getSeverity (some "hint") = Severity.hint
    ∧ (∀ t, getSeverity t = Severity.warning ↔
        t = some "warning" ∨ t = some "chemistry")
    ∧ (∀ t, getSeverity t = Severity.information ↔ t = some "info")
    ∧ (∀ t, getSeverity t = Severity.hint ↔ t = some "hint")
    ∧ (∀ r, (buildErrorDiagnostic r).severity =
        getSeverity (jsOrStr r.type r.severity))
    ∧ (∀ r, (buildWarningDiagnostic r).severity = Severity.warning) := by
  refine ⟨by decide, by decide, by decide, by decide, by decide, by decide,
    by decide, by decide, by decide, ?_, ?_, ?_, ?_, ?_⟩
  · intro t
    cases t with
    | none => simp [getSeverity]
    | some s =>
      simp only [getSeverity]
      split_ifs with h1 h2 h3 h4
      · rcases h1 with rfl | rfl | rfl | rfl | rfl <;> decide
      · rcases h2 with rfl | rfl <;> decide
      · subst h3; decide
      · subst h4; decide
      · simp_all
  · intro t
    cases t with
    | none => simp [getSeverity]
    | some s =>
      simp only [getSeverity]
      split_ifs with h1 h2 h3 h4
      · rcases h1 with rfl | rfl | rfl | rfl | rfl <;> decide
      · rcases h2 with rfl | rfl <;> decide
      · subst h3; decide
      · subst h4; decide
      · simp_all
  · intro t
    cases t with
    | none => simp [getSeverity]
    | some s =>
      simp only [getSeverity]
      split_ifs with h1 h2 h3 h4
      · rcases h1 with rfl | rfl | rfl | rfl | rfl <;> decide
      · rcases h2 with rfl | rfl <;> decide
      · subst h3; decide
      · subst h4; decide
      · simp_all
  · intro r; rfl
  · intro r; rfl

/-- Witness for the amended C3 theorem: the bare `warning` kind is
classified as Warning severity. -/
theorem severityMapping_amended_witness :
    getSeverity (some "warning") = Severity.warning :=
  (severityMapping_amended.2.2.2.2.2.2.2.2.2.1 (some "warning")).mpr
    (Or.inl rfl)

/-! ## Claim theorems: module-load cache -/

/-- An export value with the Fragment shape. -/
def fragMethane : ExportVal :=
  { smiles := some "C", molecularWeight := some 16, formula := some "CH4" }

/-- A loaded module with one fragment export `x`. -/
def moduleOne : ModuleExports := [("x", fragMethane)]

/-- A module cache holding the entry for key `f:1`. -/
def cacheOld : ModCache := [("f:1", moduleOne)]

/-- An engine whose `statSync` reports modification time 2 and whose
dynamic import throws. -/
def engImportFail : Engine :=
  { loadWithImports := fun _ => .error ""
    resolve := fun _ _ => .ok none
    decode := fun _ => .ok none
    getMolecularWeight := fun _ => .error ""
    getFormula := fun _ => .error ""
    statMtime := fun _ => .ok 2
    importModule := fun _ => .error "import failed" }

/-- An engine whose `statSync` reports modification time 1 (a cache hit
against `cacheOld` rekeyed); its import throws, which a hit never
reaches. -/
def engHit : Engine :=
  { loadWithImports := fun _ => .error ""
    resolve := fun _ _ => .ok none
    decode := fun _ => .ok none
    getMolecularWeight := fun _ => .error ""
    getFormula := fun _ => .error ""
    statMtime := fun _ => .ok 1
    importModule := fun _ => .error "" }

/-- C4 counterexample: loading file `f` whose fresh key `f:2` differs
from the cached key `f:1` does *not* evict the previous entry when the
fresh module execution throws — the cache still holds the old entry and
`null` is returned, contradicting the claim that any different-key load
evicts the previous entry. -/
theorem moduleCache_eviction_cex :
    ("f" ++ ":" ++ toString (2 : Int) : String) ≠ "f:1"
    ∧ engImportFail.statMtime "f" = .ok 2
    ∧ loadSmilesModule engImportFail cacheOld "f" = .ok (cacheOld, none)
    ∧ assocLookup cacheOld "f:1" = some moduleOne :=
  ⟨by decide, rfl, rfl, by decide⟩

/-- C4 (amended): the cache keeps at most one entry after every
operation; a load whose `(filePath, mtime)` key is cached returns the
cached exports without consulting the importer; a load with a different
key attempts a fresh execution — on success the previous entry is evicted
and replaced by the single new one, but on a failed execution the
previous entry is retained and `null` is returned. -/
theorem moduleCache_amended :
    (∀ (eng : Engine) (cache : ModCache) (fp : String) (c' : ModCache)
        (r : Option ModuleExports),
        loadSmilesModule eng cache fp = .ok (c', r) →
        cache.length ≤ 1 → c'.length ≤ 1)
    ∧ (∀ (eng : Engine) (cache : ModCache) (fp : String) (mtime : Int)
        (m : ModuleExports),
        eng.statMtime fp = .ok mtime →
        assocLookup cache (fp ++ ":" ++ toString mtime) = some m →
        ∀ imp, loadSmilesModule { eng with importModule := imp } cache fp =
          .ok (cache, some m))
    ∧ (∀ (eng : Engine) (cache : ModCache) (fp : String) (mtime : Int)
        (m : ModuleExports),
        eng.statMtime fp = .ok mtime →
        assocLookup cache (fp ++ ":" ++ toString mtime) = none →
        eng.importModule fp = .ok m →
        loadSmilesModule eng cache fp =
          .ok ([(fp ++ ":" ++ toString mtime, m)], some m))
    ∧ (∀ (eng : Engine) (cache : ModCache) (fp : String) (mtime : Int)
        (e : String),
        eng.statMtime fp = .ok mtime →
        assocLookup cache (fp ++ ":" ++ toString mtime) = none →
        eng.importModule fp = .error e →
        loadSmilesModule eng cache fp = .ok (cache, none)) := by
  refine ⟨?_, ?_, ?_, ?_⟩
  · intro eng cache fp c' r h hlen
    cases hst : eng.statMtime fp with
    | error e => simp [loadSmilesModule, hst] at h
    | ok mtime =>
      cases hl : assocLookup cache (fp ++ ":" ++ toString mtime) with
      | some m =>
        simp [loadSmilesModule, hst, hl] at h
        obtain ⟨h1, h2⟩ := h
        subst h1
        exact hlen
      | none =>
        cases him : eng.importModule fp with
        | ok m =>
          simp [loadSmilesModule, hst, hl, him] at h
          obtain ⟨h1, h2⟩ := h
          subst h1
          simp
        | error e =>
          simp [loadSmilesModule, hst, hl, him] at h
          obtain ⟨h1, h2⟩ := h
          subst h1
          exact hlen
  · intro eng cache fp mtime m hst hlook imp
    simp [loadSmilesModule, hst, hlook]
  · intro eng cache fp mtime m hst hlook him
    simp [loadSmilesModule, hst, hlook, him]
  · intro eng cache fp mtime e hst hlook him
    simp [loadSmilesModule, hst, hlook, him]

/-- Witness for the amended C4 theorem: a hit on the cached key `f:1`
returns the cached exports unchanged, for an importer that would throw if
it were consulted. -/
theorem moduleCache_amended_witness :
    loadSmilesModule
        { engHit with importModule := fun _ => Except.error "never" }
        cacheOld "f" = .ok (cacheOld, some moduleOne) :=
  moduleCache_amended.2.1 engHit cacheOld "f" 1 moduleOne rfl (by decide)
    (fun _ => Except.error "never")

/-! ## Claim theorems: session-state event handlers -/

/-- C9: a cursor event whose document and line number both equal the
tracked ones triggers no resolution and leaves the state untouched; an
active-editor change to a supported document always triggers a
resolution — even at an unchanged line number — discarding the memoized
full-document resolution exactly when the document identity differs. -/
theorem cursorAndEditorEvents (st : TrackerState) (d : Doc) (n : Nat) :
    (st.currentDocument = some d → st.currentLine = some n →
      handleSelectionChange st (some d) n = (st, false))
    ∧ (isSupportedFile d = true →
        (handleEditorChange st (some d) n).2 = true
        ∧ (st.currentDocument ≠ some d →
            ((handleEditorChange st (some d) n).1).parseResult = none)
        ∧ (st.currentDocument = some d →
            (handleEditorChange st (some d) n).1 =
              { st with currentLine := some n })) := by
  constructor
  · intro _ h2
    cases hs : isSupportedFile d <;> simp [handleSelectionChange, hs, h2]
  · intro hs
    by_cases hd : st.currentDocument = some d <;>
      simp [handleEditorChange, hs, hd]

/-- Witness for C9: with the blank document tracked at line 0, a cursor
event at the same document and line is a no-op, and an editor-change
event to the same document at the same line still triggers a
resolution. -/
theorem cursorAndEditorEvents_witness :
    handleSelectionChange
        { currentDocument := some docBlank, currentLine := some 0,
          parseResult := none } (some docBlank) 0 =
      ({ currentDocument := some docBlank, currentLine := some 0,
         parseResult := none }, false)
    ∧ (handleEditorChange
        { currentDocument := some docBlank, currentLine := some 0,
          parseResult := none } (some docBlank) 0).2 = true :=
  ⟨(cursorAndEditorEvents _ docBlank 0).1 rfl rfl,
   ((cursorAndEditorEvents _ docBlank 0).2 (by decide)).1⟩

/-! ## Claim theorems: export-at-line lookup -/

/-- The export pattern cannot match at the end of the line. -/
theorem matchExportAt_nil : matchExportAt [] = none := rfl

/-- The scanner finds a match exactly when some start index matches, and
then it returns the match at the leftmost matching index. -/
theorem scanExport_some_iff (cs : List Char) (id : String) :
    scanExport cs = some id ↔
      ∃ j, matchExportAt (cs.drop j) = some id ∧
        ∀ k < j, matchExportAt (cs.drop k) = none := by
  induction cs with
  | nil =>
    constructor
    · intro h; cases h
    · rintro ⟨j, hj, -⟩
      rw [List.drop_nil, matchExportAt_nil] at hj
      cases hj
  | cons c rest ih =>
    constructor
    · intro h
      unfold scanExport at h
      cases hm : matchExportAt (c :: rest) with
      | some a =>
        rw [hm] at h
        simp only at h
        refine ⟨0, ?_, ?_⟩
        · simpa [hm] using h
        · intro k hk; omega
      | none =>
        rw [hm] at h
        simp only at h
        obtain ⟨j, hj, hk⟩ := ih.mp h
        refine ⟨j + 1, by simpa using hj, ?_⟩
        intro k hk'
        cases k with
        | zero => simpa using hm
        | succ k' => simpa using hk k' (Nat.lt_of_succ_lt_succ hk')
    · rintro ⟨j, hj, hk⟩
      cases j with
      | zero =>
        simp only [List.drop_zero] at hj
        unfold scanExport
        rw [hj]
      | succ j' =>
        have h0 := hk 0 (Nat.succ_pos j')
        simp only [List.drop_zero] at h0
        unfold scanExport
        rw [h0]
        exact ih.mpr ⟨j', by simpa using hj,
          fun k hk' => by simpa using hk (k + 1) (Nat.succ_lt_succ hk')⟩

/-- C10: locating an export at a line is total and safe — any line index
at or past the end of the split line list yields `null`; a returned
identifier is exactly the capture of the leftmost match of the
export-declaration pattern on that line; and whenever the line exists and
the pattern has a leftmost match, that capture is returned. -/
theorem findExportAtLine_total_leftmost :
    (∀ (text : String) (n : Nat),
      (docLines text).length ≤ n → findExportAtLine text n = none)
    ∧ (∀ (text : String) (n : Nat) (id : String),
        findExportAtLine text n = some id →
        ∃ line, (docLines text)[n]? = some line ∧
          ∃ j, matchExportAt (line.toList.drop j) = some id ∧
            ∀ k < j, matchExportAt (line.toList.drop k) = none)
    ∧ (∀ (text : String) (n : Nat) (line : String) (j : Nat) (id : String),
        (docLines text)[n]? = some line →
        matchExportAt (line.toList.drop j) = some id →
        (∀ k < j, matchExportAt (line.toList.drop k) = none) →
        findExportAtLine text n = some id) := by
  refine ⟨?_, ?_, ?_⟩
  · intro text n h
    unfold findExportAtLine
    dsimp only
    rw [List.getElem?_eq_none h]
  · intro text n id h
    unfold findExportAtLine at h
    dsimp only at h
    cases hl : (docLines text)[n]? with
    | none => rw [hl] at h; cases h
    | some line =>
      rw [hl] at h
      simp only at h
      by_cases he : line = ""
      · rw [if_pos he] at h; cases h
      · rw [if_neg he] at h
        exact ⟨line, rfl, (scanExport_some_iff line.toList id).mp h⟩
  · intro text n line j id hl hj hk
    unfold findExportAtLine
    dsimp only
    rw [hl]
    simp only
    have he : line ≠ "" := by
      intro he
      subst he
      rw [show ("" : String).toList = [] from rfl, List.drop_nil,
        matchExportAt_nil] at hj
      cases hj
    rw [if_neg he]
    exact (scanExport_some_iff line.toList id).mpr ⟨j, hj, hk⟩

/-- Witness for C10: a line index past the end of a one-line document
yields `null` without faulting. -/
theorem findExportAtLine_total_leftmost_witness :
    findExportAtLine "export const foo = 1" 3 = none :=
  findExportAtLine_total_leftmost.1 "export const foo = 1" 3 (by decide)

/-! ## Claim theorems: resolution pipeline (`_updateLineInfo`) -/

/-- A one-definition declarative document. -/
def docDecl : Doc :=
  { id := 3, text := "[a] = [C]", fileName := "m.selfies",
    languageId := "selfies" }

/-- The definition `a` on source line 1. -/
def defnA : Definition :=
  { name := "a", line := 1, tokens := some [Token.str "[a]"] }

/-- A parse result whose only definition is `defnA`. -/
def prOne : ParseResult :=
  { definitions := some [defnA], errors := none, warnings := none }

/-- An empty parse result (used as a memoized resolution). -/
def prEmpty : ParseResult :=
  { definitions := none, errors := none, warnings := none }

/-- An engine on which resolve and decode succeed, the weight computation
succeeds, and the formula computation throws. -/
def engFormulaThrows : Engine :=
  { loadWithImports := fun _ => .ok prOne
    resolve := fun _ _ => .ok (some "[C]")
    decode := fun _ => .ok (some "C")
    getMolecularWeight := fun _ => .ok 16
    getFormula := fun _ => .error "formula failed"
    statMtime := fun _ => .ok 0
    importModule := fun _ => .error "" }

/-- An engine on which every declarative stage succeeds. -/
def engAllOk : Engine :=
  { loadWithImports := fun _ => .ok prOne
    resolve := fun _ _ => .ok (some "[C]")
    decode := fun _ => .ok (some "C")
    getMolecularWeight := fun _ => .ok 16
    getFormula := fun _ => .ok "CH4"
    statMtime := fun _ => .ok 0
    importModule := fun _ => .error "" }

/-- An engine on which resolve succeeds and decode throws. -/
def engDecodeFail : Engine :=
  { loadWithImports := fun _ => .ok prOne
    resolve := fun _ _ => .ok (some "[C]")
    decode := fun _ => .error "decode failed"
    getMolecularWeight := fun _ => .error ""
    getFormula := fun _ => .error ""
    statMtime := fun _ => .ok 0
    importModule := fun _ => .error "" }

/-- An engine on which resolve throws. -/
def engResolveThrows : Engine :=
  { loadWithImports := fun _ => .ok prOne
    resolve := fun _ _ => .error "unresolved"
    decode := fun _ => .ok none
    getMolecularWeight := fun _ => .error ""
    getFormula := fun _ => .error ""
    statMtime := fun _ => .ok 0
    importModule := fun _ => .error "" }

/-- C1 counterexample: on a declarative document whose only line is blank,
a resolution attempt with no memoized resolution and an engine whose
full-document parse throws publishes a result with a non-null `error` —
the parse runs *before* the blank/comment check, so the claim fails for
this engine behaviour. -/
theorem blankLine_parseThrow_cex :
    jsTrim "" = ""
    ∧ (docLines docBlank.text)[0]? = some ""
    ∧ updateLineInfo engBoom docBlank 0 none [] =
        { parseCache := none, modCache := []
          fired := some
            { line := 0, name := none, expression := none, selfies := none
              smiles := none, molecularWeight := none, formula := none
              error := some "boom" } } :=
  ⟨rfl, rfl, rfl⟩

/-- C1 (amended): a resolution attempt on a blank or comment-only line
publishes the "nothing to show" signal — unconditionally on the
executable-module path, and on the declarative path provided the
full-document resolution is memoized or the engine's parse returns
normally; when the parse throws on a declarative document the caught
message is published as an error result even for such a line. -/
theorem blankCommentLine_amended (eng : Engine) (doc : Doc) (n : Nat)
    (pc : Option ParseResult) (mc : ModCache) (raw : String)
    (hline : (docLines doc.text)[n]? = some raw)
    (hblank : if isSmilesJS doc then
        jsTrim raw = "" ∨ strStartsWith (jsTrim raw) "//" = true ∨
          strStartsWith (jsTrim raw) "/*" = true
      else jsTrim raw = "" ∨ strStartsWith (jsTrim raw) "#" = true)
    (hparse : isSmilesJS doc = false →
      ∃ pr, effectiveParse eng doc pc = .ok pr) :
    (updateLineInfo eng doc n pc mc).fired = none := by
  unfold updateLineInfo updateLineInfoTry
  dsimp only
  rw [hline]
  cases hfmt : isSmilesJS doc with
  | true =>
    rw [hfmt] at hblank
    simp only [if_true] at hblank
    rcases hblank with h | h | h <;> simp [hfmt, h]
  | false =>
    rw [hfmt] at hblank
    simp only [Bool.false_eq_true, if_false] at hblank
    obtain ⟨pr, hp⟩ := hparse hfmt
    simp only [hfmt, Bool.false_eq_true, if_false]
    rw [hp]
    rcases hblank with h | h <;> simp [h]

/-- Witness for the amended C1 theorem: with the parse memoized, the
blank line of the blank document resolves to `null` even though the
engine's parse would throw. -/
theorem blankCommentLine_amended_witness :
    (updateLineInfo engBoom docBlank 0 (some prEmpty) []).fired = none :=
  blankCommentLine_amended engBoom docBlank 0 (some prEmpty) [] ""
    rfl (by decide) (fun _ => ⟨prEmpty, rfl⟩)

/-- C2 counterexample: with resolve and decode succeeding, the weight
computation succeeding and the formula computation throwing, the
published result has `molecularWeight` populated and `formula` null —
exactly one of the two populated, contradicting the claim. -/
theorem massWithoutFormula_cex :
    (updateLineInfo engFormulaThrows docDecl 0 none []).fired =
      some { line := 0, name := some "a", expression := some "[a]"
             selfies := some "[C]", smiles := some "C"
             molecularWeight := some 16, formula := none, error := none } :=
  rfl

/-- Property computation in `declarativeResolve` populates `formula` only
after `molecularWeight` succeeded. -/
theorem declarativeResolve_formula_weight (eng : Engine) (pr : ParseResult)
    (n : Nat) (d : Definition) :
    (declarativeResolve eng pr n d).formula ≠ none →
    (declarativeResolve eng pr n d).molecularWeight ≠ none := by
  unfold declarativeResolve
  cases hres : eng.resolve pr d.name with
  | error m => simp [strFalsy]
  | ok v =>
    cases hv : strFalsy v with
    | true => simp [hv]
    | false =>
      simp only [hv, Bool.false_eq_true, if_false]
      cases hdec : eng.decode (v.getD "") with
      | error m =>
        by_cases hm : m = ""
        · subst hm
          cases hw : eng.getMolecularWeight (v.getD "") with
          | error e => simp [hv, hdec, hw, strFalsy]
          | ok w =>
            cases hform : eng.getFormula (v.getD "") with
            | error e => simp [hv, hdec, hw, hform, strFalsy]
            | ok f => simp [hv, hdec, hw, hform, strFalsy]
        · simp [hdec, strFalsy, hm]
      | ok sm =>
        simp only [hdec]
        cases hw : eng.getMolecularWeight (v.getD "") with
        | error e => simp [hv, hw, strFalsy]
        | ok w =>
          cases hform : eng.getFormula (v.getD "") with
          | error e => simp [hv, hw, hform, strFalsy]
          | ok f => simp [hv, hw, hform, strFalsy]

/-- On a declarative document, a normally-returning `_updateLineInfo` run
fires either `null` or the result of the declarative resolve stages. -/
theorem updateLineInfoTry_fired_cases (eng : Engine) (doc : Doc) (n : Nat)
    (pc : Option ParseResult) (mc : ModCache) (r : UpdateOutcome)
    (hfmt : isSmilesJS doc = false)
    (h : updateLineInfoTry eng doc n pc mc = .ok r) :
    r.fired = none ∨
      ∃ pr defn, r.fired = some (declarativeResolve eng pr n defn) := by
  cases hl : (docLines doc.text)[n]? with
  | none => simp [updateLineInfoTry, hl] at h
  | some raw =>
    cases hp : effectiveParse eng doc pc with
    | error e => simp [updateLineInfoTry, hl, hfmt, hp] at h
    | ok pr =>
      by_cases hb : jsTrim raw = ""
      · simp [updateLineInfoTry, hl, hfmt, hp, hb] at h
        left
        rw [← h]
      · cases hc : strStartsWith (jsTrim raw) "#" with
        | true =>
          simp [updateLineInfoTry, hl, hfmt, hp, hb, hc] at h
          left
          rw [← h]
        | false =>
          cases hf : (pr.definitions.getD []).find? (fun d => d.line = n + 1) with
          | none =>
            simp [updateLineInfoTry, hl, hfmt, hp, hb, hc, hf] at h
            left
            rw [← h]
          | some defn =>
            simp [updateLineInfoTry, hl, hfmt, hp, hb, hc, hf] at h
            right
            exact ⟨pr, defn, by rw [← h]⟩

/-- C2 (amended): on the declarative path, every published Resolution
Result with a populated `formula` also has a populated `molecularWeight`;
the converse fails — a formula-computation failure after the weight
succeeded leaves only the weight populated (see the counterexample), and
a weight-computation failure leaves both null. -/
theorem formulaImpliesMass_amended (eng : Engine) (doc : Doc) (n : Nat)
    (pc : Option ParseResult) (mc : ModCache) (info : LineInfo)
    (hfmt : isSmilesJS doc = false)
    (hf : (updateLineInfo eng doc n pc mc).fired = some info)
    (hformula : info.formula ≠ none) : info.molecularWeight ≠ none := by
  unfold updateLineInfo at hf
  cases htry : updateLineInfoTry eng doc n pc mc with
  | error msg =>
    rw [htry] at hf
    simp only at hf
    injection hf with hf
    rw [← hf] at hformula
    simp at hformula
  | ok r =>
    rw [htry] at hf
    simp only at hf
    rcases updateLineInfoTry_fired_cases eng doc n pc mc r hfmt htry with
      h0 | ⟨pr, defn, h0⟩
    · rw [h0] at hf; cases hf
    · rw [h0] at hf
      injection hf with hf
      rw [← hf] at hformula ⊢
      exact declarativeResolve_formula_weight eng pr n defn hformula

/-- Witness for the amended C2 theorem: on the all-success engine the
published result carries both the formula and the weight. -/
theorem formulaImpliesMass_amended_witness :
    ({ line := 0, name := some "a", expression := some "[a]"
       selfies := some "[C]", smiles := some "C"
       molecularWeight := some 16, formula := some "CH4"
       error := none } : LineInfo).molecularWeight ≠ none :=
  formulaImpliesMass_amended engAllOk docDecl 0 none [] _ rfl rfl (by decide)

/-- C5: when name-resolution succeeds and decode throws, the published
result records the caught decode message in `error` while still carrying
the resolved encoded form in `selfies` — alongside the definition's name
and expression — and no canonical notation. (The property fields are left
unconstrained: an empty caught message is falsy for the
`if (selfies && !error)` guard, so the source may still compute them.) -/
theorem decodeFailure_preservesEncodedForm (eng : Engine) (doc : Doc)
    (n : Nat) (pc : Option ParseResult) (mc : ModCache) (raw : String)
    (pr : ParseResult) (defn : Definition) (s m : String)
    (hfmt : isSmilesJS doc = false)
    (hline : (docLines doc.text)[n]? = some raw)
    (hne : jsTrim raw ≠ "")
    (hnc : strStartsWith (jsTrim raw) "#" = false)
    (hparse : effectiveParse eng doc pc = .ok pr)
    (hfind : (pr.definitions.getD []).find? (fun d => d.line = n + 1) =
      some defn)
    (hres : eng.resolve pr defn.name = .ok (some s))
    (hs : s ≠ "")
    (hdec : eng.decode s = .error m) :
    ∃ info, (updateLineInfo eng doc n pc mc).fired = some info
      ∧ info.error = some m
      ∧ info.selfies = some s
      ∧ info.name = some defn.name
      ∧ info.expression = some (definitionExpression defn)
      ∧ info.smiles = none := by
  unfold updateLineInfo updateLineInfoTry
  dsimp only
  rw [hline]
  simp only [hfmt, Bool.false_eq_true, if_false]
  rw [hparse]
  simp only [hne, hnc]
  rw [hfind]
  refine ⟨declarativeResolve eng pr n defn, rfl, ?_, ?_, ?_, ?_, ?_⟩ <;>
    simp [declarativeResolve, hres, strFalsy, hs, hdec]

/-- Witness for C5: the decode-throwing engine on the one-definition
document publishes the resolved form with the decode message as error. -/
theorem decodeFailure_preservesEncodedForm_witness :
    ∃ info, (updateLineInfo engDecodeFail docDecl 0 none []).fired = some info
      ∧ info.error = some "decode failed"
      ∧ info.selfies = some "[C]"
      ∧ info.name = some "a"
      ∧ info.expression = some (definitionExpression defnA)
      ∧ info.smiles = none :=
  decodeFailure_preservesEncodedForm engDecodeFail docDecl 0 none []
    "[a] = [C]" prOne defnA "[C]" "decode failed"
    rfl rfl (by decide) (by decide) rfl rfl rfl (by decide) rfl

/-- C6: when name-resolution throws or yields a falsy value for a located
definition, the published result still carries the definition's name and
its expression text — the join of the raw tokens with repeat-construct
tokens rendered as `repeat(pattern, count)` — alongside a non-null
error. -/
theorem resolveFailure_preservesNameExpression (eng : Engine) (doc : Doc)
    (n : Nat) (pc : Option ParseResult) (mc : ModCache) (raw : String)
    (pr : ParseResult) (defn : Definition) (m : String) (toks : List Token)
    (hfmt : isSmilesJS doc = false)
    (hline : (docLines doc.text)[n]? = some raw)
    (hne : jsTrim raw ≠ "")
    (hnc : strStartsWith (jsTrim raw) "#" = false)
    (hparse : effectiveParse eng doc pc = .ok pr)
    (hfind : (pr.definitions.getD []).find? (fun d => d.line = n + 1) =
      some defn)
    (htoks : defn.tokens = some toks)
    (hres : eng.resolve pr defn.name = .error m ∨
      eng.resolve pr defn.name = .ok none ∨
      eng.resolve pr defn.name = .ok (some "")) :
    ∃ e, (updateLineInfo eng doc n pc mc).fired =
      some { line := n, name := some defn.name
             expression := some (formatTokens toks)
             selfies := none, smiles := none
             molecularWeight := none, formula := none, error := some e } := by
  unfold updateLineInfo updateLineInfoTry
  dsimp only
  rw [hline]
  simp only [hfmt, Bool.false_eq_true, if_false]
  rw [hparse]
  simp only [hne, hnc]
  rw [hfind]
  rcases hres with h | h | h
  · exact ⟨errOrDefault (some m) "Could not resolve definition",
      by simp [declarativeResolve, h, strFalsy, definitionExpression, htoks]⟩
  · exact ⟨"Could not resolve definition",
      by simp [declarativeResolve, h, strFalsy, definitionExpression, htoks,
        errOrDefault]⟩
  · exact ⟨"Could not resolve definition",
      by simp [declarativeResolve, h, strFalsy, definitionExpression, htoks,
        errOrDefault]⟩

/-- Witness for C6: the resolve-throwing engine still publishes name `a`
and the formatted token expression. -/
theorem resolveFailure_preservesNameExpression_witness :
    ∃ e, (updateLineInfo engResolveThrows docDecl 0 none []).fired =
      some { line := 0, name := some "a"
             expression := some (formatTokens [Token.str "[a]"])
             selfies := none, smiles := none
             molecularWeight := none, formula := none, error := some e } :=
  resolveFailure_preservesNameExpression engResolveThrows docDecl 0 none []
    "[a] = [C]" prOne defnA "unresolved" [Token.str "[a]"]
    rfl rfl (by decide) (by decide) rfl rfl rfl (Or.inl rfl)

end SelfiesVscode
